import Mathlib

/-!
Shallow embedding of `src/pam_pwquality.c` (the pam_pwquality PAM module of
libpwquality).  The module is glue code between the PAM host framework and the
libpwquality checking library: option parsing (`_pam_parse`), an error-code to
message table (`make_error_message`), and a bounded retry loop inside the
entry point `pam_sm_chauthtok`.

All external calls (host framework item store, token retrieval, logging, and
the quality-check library) are modelled by an environment that supplies their
results; the entry point becomes a pure function from the environment, the
phase flags and the argument vector to a final PAM status together with the
ordered trace of externally visible calls (events).
-/

namespace PamPwquality

/-! ### PAM constants

Numeric values of the host framework's public ABI
(`security/pam_modules.h`, Linux-PAM); the host framework is an external
collaborator of this repository. -/

def PAM_SUCCESS : Int := 0
def PAM_SERVICE_ERR : Int := 3
def PAM_BUF_ERR : Int := 5
def PAM_MAXTRIES : Int := 11
def PAM_AUTHTOK_ERR : Int := 20

/-- Flag bit `PAM_PRELIM_CHECK` (0x4000) of the host ABI. -/
def PAM_PRELIM_CHECK : Nat := 0x4000

/-- Flag bit `PAM_UPDATE_AUTHTOK` (0x2000) of the host ABI. -/
def PAM_UPDATE_AUTHTOK : Nat := 0x2000

/-- Flag bit `PAM_CHANGE_EXPIRED_AUTHTOK` (0x20) of the host ABI. -/
def PAM_CHANGE_EXPIRED_AUTHTOK : Nat := 0x20

/-- `#define PAM_DEBUG_ARG 0x0001` (src/pam_pwquality.c line 41). -/
def PAM_DEBUG_ARG : Nat := 0x0001

/-- `#define CO_RETRY_TIMES 1` (src/pam_pwquality.c line 48). -/
def CO_RETRY_TIMES : Int := 1

/-! ### libpwquality error codes

The C file includes `pwquality.h`, which belongs to this repository but is
not under `src/`; the spec lists the error kinds without numeric values. -/

/-- Modelled from the spec: `PWQ_ERROR_MEM_ALLOC` of `pwquality.h` (memory
allocation error), file missing from src/; value per the library's public ABI. -/
def PWQ_ERROR_MEM_ALLOC : Int := -8

/-- Modelled from the spec: `PWQ_ERROR_TOO_SIMILAR` of `pwquality.h`. -/
def PWQ_ERROR_TOO_SIMILAR : Int := -9

/-- Modelled from the spec: `PWQ_ERROR_MIN_DIGITS` of `pwquality.h`. -/
def PWQ_ERROR_MIN_DIGITS : Int := -10

/-- Modelled from the spec: `PWQ_ERROR_MIN_UPPERS` of `pwquality.h`. -/
def PWQ_ERROR_MIN_UPPERS : Int := -11

/-- Modelled from the spec: `PWQ_ERROR_MIN_LOWERS` of `pwquality.h`. -/
def PWQ_ERROR_MIN_LOWERS : Int := -12

/-- Modelled from the spec: `PWQ_ERROR_MIN_OTHERS` of `pwquality.h`. -/
def PWQ_ERROR_MIN_OTHERS : Int := -13

/-- Modelled from the spec: `PWQ_ERROR_MIN_LENGTH` of `pwquality.h`. -/
def PWQ_ERROR_MIN_LENGTH : Int := -14

/-- Modelled from the spec: `PWQ_ERROR_PALINDROME` of `pwquality.h`. -/
def PWQ_ERROR_PALINDROME : Int := -15

/-- Modelled from the spec: `PWQ_ERROR_CASE_CHANGES_ONLY` of `pwquality.h`. -/
def PWQ_ERROR_CASE_CHANGES_ONLY : Int := -16

/-- Modelled from the spec: `PWQ_ERROR_ROTATED` of `pwquality.h`. -/
def PWQ_ERROR_ROTATED : Int := -17

/-- Modelled from the spec: `PWQ_ERROR_MIN_CLASSES` of `pwquality.h`. -/
def PWQ_ERROR_MIN_CLASSES : Int := -18

/-- Modelled from the spec: `PWQ_ERROR_MAX_CONSECUTIVE` of `pwquality.h`. -/
def PWQ_ERROR_MAX_CONSECUTIVE : Int := -19

/-- Modelled from the spec: `PWQ_ERROR_EMPTY_PASSWORD` of `pwquality.h`. -/
def PWQ_ERROR_EMPTY_PASSWORD : Int := -20

/-- Modelled from the spec: `PWQ_ERROR_SAME_PASSWORD` of `pwquality.h`. -/
def PWQ_ERROR_SAME_PASSWORD : Int := -21

/-- Modelled from the spec: `PWQ_ERROR_CRACKLIB_CHECK` of `pwquality.h`. -/
def PWQ_ERROR_CRACKLIB_CHECK : Int := -22

/-! ### `strtol`, base 10

Model of the C library `strtol(s, &ep, 10)` value: skip leading white space,
optional sign, then the longest prefix of decimal digits (0 when there is
none).  `strtol` always stores a non-null pointer through `ep`, so the
`!ep` test at line 76 of the source is dead and only the value matters. -/

def digitsVal (cs : List Char) : Int :=
  (cs.takeWhile Char.isDigit).foldl (fun a c => a * 10 + ((c.toNat - 48 : Nat) : Int)) 0

def strtol10 (s : String) : Int :=
  match s.toList.dropWhile (fun c => c = ' ' ∨ c = '\t' ∨ c = '\n' ∨ c = '\r') with
  | '-' :: rest => - digitsVal rest
  | '+' :: rest => digitsVal rest
  | rest => digitsVal rest

/-! ### Externally visible events -/

/-- One externally visible call made by the module, with the results the
environment supplied where relevant.  `logMsg` stands for any
`pam_syslog` call. -/
inductive Event where
  /-- `pam_set_item(pamh, PAM_AUTHTOK_TYPE, ...)` from a `type=` option. -/
  | setAuthtokType (s : String)
  /-- a `pam_syslog` diagnostic call. -/
  | logMsg
  /-- `pam_get_item(pamh, PAM_OLDAUTHTOK, &oldtoken)` with its return value. -/
  | getOldItem (ret : Int)
  /-- `pam_get_authtok_noverify` with its return value and token. -/
  | getNoverify (ret : Int) (tok : Option String)
  /-- `pwquality_check` (library call) with its return value. -/
  | pwqCheck (ret : Int)
  /-- `pam_error(pamh, "BAD PASSWORD: %s", msg)`. -/
  | pamError (msg : String)
  /-- `pam_set_item(pamh, PAM_AUTHTOK, v)` (the module only ever passes NULL). -/
  | setAuthtok (tok : Option String)
  /-- `pam_get_authtok_verify` with its return value and token. -/
  | getVerify (ret : Int) (tok : Option String)
  deriving Repr, DecidableEq

/-! ### C string primitives on ASCII option strings -/

/-- `strncmp(s, pre, strlen pre) == 0` character by character. -/
def strncmpEq : List Char → List Char → Bool
  | _, [] => true
  | [], _ :: _ => false
  | c :: cs, p :: ps => c = p && strncmpEq cs ps

/-- `strncmp(s, pre, strlen pre) == 0`: `s` begins with `pre` (the option
prefixes are all ASCII, so characters coincide with bytes). -/
def beginsWith (s pre : String) : Bool :=
  strncmpEq s.toList pre.toList

/-- Pointer arithmetic `s + n` on an ASCII option string: the suffix after
the first `n` characters. -/
def strAdvance (s : String) (n : Nat) : String :=
  String.mk (s.toList.drop n)

/-! ### Option parsing (`_pam_parse`, lines 50-97) -/

/-- Environment for `_pam_parse`: results of the libpwquality calls it makes. -/
structure ParseEnv where
  /-- whether `pwquality_default_settings()` returns a non-null handle. -/
  defaultSettingsOk : Bool
  /-- return value of `pwquality_read_config` (non-zero is only logged). -/
  readConfigRet : Int
  /-- return value of `pwquality_set_option` per forwarded argument string. -/
  setOptionRet : String → Int

/-- The argument loop of `_pam_parse` (lines 67-92): returns the `ctrl`
bit mask, the final `retry_times`, and the trace of events, in argument
order.  `strcmp` is string equality, `strncmp(s, p, strlen p)` is a prefix
test. -/
def parseArgs (penv : ParseEnv) : List String → Nat → Int → Nat × Int × List Event
  | [], ctrl, retry => (ctrl, retry, [])
  | arg :: rest, ctrl, retry =>
    if arg = "debug" then
      parseArgs penv rest (ctrl ||| PAM_DEBUG_ARG) retry
    else if beginsWith arg "type=" then
      let r := parseArgs penv rest ctrl retry
      (r.1, r.2.1, Event.setAuthtokType (strAdvance arg 5) :: r.2.2)
    else if beginsWith arg "retry=" then
      parseArgs penv rest ctrl
        (if strtol10 (strAdvance arg 6) < 1 then CO_RETRY_TIMES else strtol10 (strAdvance arg 6))
    else if beginsWith arg "reject_username" then
      parseArgs penv rest ctrl retry
    else if beginsWith arg "authtok_type" then
      parseArgs penv rest ctrl retry
    else if beginsWith arg "use_authtok" then
      parseArgs penv rest ctrl retry
    else if beginsWith arg "use_first_pass" then
      parseArgs penv rest ctrl retry
    else if beginsWith arg "try_first_pass" then
      parseArgs penv rest ctrl retry
    else
      let r := parseArgs penv rest ctrl retry
      (r.1, r.2.1, (if penv.setOptionRet arg ≠ 0 then [Event.logMsg] else []) ++ r.2.2)

/-- `_pam_parse` (lines 50-97).  `none` models the `return -1` when
`pwquality_default_settings()` yields NULL (before any argument is looked
at); otherwise the `ctrl` mask, final `retry_times` (initialised by the
caller, line 142) and the event trace.  A failing `pwquality_read_config`
is only logged (lines 62-64). -/
def _pam_parse (penv : ParseEnv) (argv : List String) (retry0 : Int) :
    Option (Nat × Int × List Event) :=
  if penv.defaultSettingsOk then
    let r := parseArgs penv argv 0 retry0
    some (r.1, r.2.1, (if penv.readConfigRet ≠ 0 then [Event.logMsg] else []) ++ r.2.2)
  else
    none

/-! ### `make_error_message` (lines 99-132) -/

/-- `make_error_message(rv, crack_msg)`: the C `switch` on the quality-check
result, translated case by case (gettext `_()` is the identity here). -/
def make_error_message (rv : Int) (crack_msg : String) : String :=
  if rv = PWQ_ERROR_MEM_ALLOC then "memory allocation error"
  else if rv = PWQ_ERROR_SAME_PASSWORD then "is the same as the old one"
  else if rv = PWQ_ERROR_PALINDROME then "is a palindrome"
  else if rv = PWQ_ERROR_CASE_CHANGES_ONLY then "case changes only"
  else if rv = PWQ_ERROR_TOO_SIMILAR then "is too similar to the old one"
  else if rv = PWQ_ERROR_MIN_DIGITS ∨ rv = PWQ_ERROR_MIN_UPPERS ∨
          rv = PWQ_ERROR_MIN_LOWERS ∨ rv = PWQ_ERROR_MIN_OTHERS ∨
          rv = PWQ_ERROR_MIN_LENGTH then "is too simple"
  else if rv = PWQ_ERROR_ROTATED then "is rotated"
  else if rv = PWQ_ERROR_MIN_CLASSES then "not enough character classes"
  else if rv = PWQ_ERROR_MAX_CONSECUTIVE then "contains too many same characters consecutively"
  else if rv = PWQ_ERROR_EMPTY_PASSWORD then "No password supplied"
  else if rv = PWQ_ERROR_CRACKLIB_CHECK then crack_msg
  else "Error in service module"

/-! ### The update-phase retry loop (lines 166-230) -/

/-- Results the environment supplies to one iteration of the retry loop. -/
structure Attempt where
  /-- return value of `pam_get_authtok_noverify`. -/
  noverifyRet : Int
  /-- token stored through `&newtoken` by `pam_get_authtok_noverify`. -/
  noverifyTok : Option String
  /-- return value of `pwquality_check` (negative is a rejection). -/
  checkRet : Int
  /-- message stored through `&crack_msg` by `pwquality_check`. -/
  crackMsg : String
  /-- return value of `pam_get_authtok_verify`. -/
  verifyRet : Int
  /-- token stored through `&newtoken` by `pam_get_authtok_verify`. -/
  verifyTok : Option String
  deriving Repr, DecidableEq

/-- Environment of one `pam_sm_chauthtok` invocation. -/
structure Env where
  parse : ParseEnv
  /-- result of `getuid()`. -/
  uid : Nat
  /-- return value of `pam_get_item(pamh, PAM_OLDAUTHTOK, ...)`. -/
  getOldRet : Int
  /-- per-iteration external results, indexed by the 0-based iteration count. -/
  attempts : Nat → Attempt

/-- Outcome of one execution of the loop body (lines 168-220): `ret` models a
`return` out of the entry point, `cont` a `continue` carrying the value the
local `retval` has at that point. -/
inductive StepResult where
  | ret (status : Int) (evs : List Event)
  | cont (retval : Int) (evs : List Event)
  deriving Repr, DecidableEq

/-- The trace of a `pwquality_check` rejection or acceptance
(lines 193-208 before the policy fork): the optional debug log
(lines 196-197 / 206-207) and, on rejection, the `pam_error` display
(line 198) with the message built by `make_error_message` (line 195). -/
def checkEvents (env : Env) (ctrl tries : Nat) : List Event :=
  if (env.attempts tries).checkRet < 0 then
    (if ctrl &&& PAM_DEBUG_ARG ≠ 0 then [Event.logMsg] else []) ++
      [Event.pamError ("BAD PASSWORD: " ++
        make_error_message (env.attempts tries).checkRet (env.attempts tries).crackMsg)]
  else
    (if ctrl &&& PAM_DEBUG_ARG ≠ 0 then [Event.logMsg] else [])

/-- The events of one iteration up to and including the quality check:
`pam_get_authtok_noverify` (line 181), `pwquality_check` (line 191) and
the rejection/acceptance diagnostics. -/
def preEvents (env : Env) (ctrl tries : Nat) : List Event :=
  Event.getNoverify (env.attempts tries).noverifyRet (env.attempts tries).noverifyTok ::
    Event.pwqCheck (env.attempts tries).checkRet :: checkEvents env ctrl tries

/-- One iteration of the retry loop (lines 168-220), for the `tries`-th
iteration (0-based; the C `tries++` at line 171 only counts iterations). -/
def step (env : Env) (flags ctrl : Nat) (tries : Nat) : StepResult :=
  -- lines 181-188: pam_get_authtok_noverify
  if (env.attempts tries).noverifyRet ≠ PAM_SUCCESS then
    StepResult.cont (env.attempts tries).noverifyRet
      [Event.getNoverify (env.attempts tries).noverifyRet (env.attempts tries).noverifyTok,
       Event.logMsg]
  else
    match (env.attempts tries).noverifyTok with
    | none =>
      -- line 186-187: user aborted password change, quit
      StepResult.ret PAM_AUTHTOK_ERR
        [Event.getNoverify (env.attempts tries).noverifyRet none]
    | some _tok =>
      -- lines 191-208: pwquality_check, message display, policy fork
      if (env.attempts tries).checkRet < 0 ∧
          (env.uid ≠ 0 ∨ flags &&& PAM_CHANGE_EXPIRED_AUTHTOK ≠ 0) then
        StepResult.cont PAM_AUTHTOK_ERR (preEvents env ctrl tries ++ [Event.setAuthtok none])
      else
        -- lines 210-220: pam_get_authtok_verify
        if (env.attempts tries).verifyRet ≠ PAM_SUCCESS then
          StepResult.cont (env.attempts tries).verifyRet
            (preEvents env ctrl tries ++
              [Event.getVerify (env.attempts tries).verifyRet (env.attempts tries).verifyTok,
               Event.logMsg, Event.setAuthtok none])
        else
          match (env.attempts tries).verifyTok with
          | none =>
            -- line 216-217: user aborted password change, quit
            StepResult.ret PAM_AUTHTOK_ERR
              (preEvents env ctrl tries ++
                [Event.getVerify (env.attempts tries).verifyRet none])
          | some t =>
            -- line 220: return PAM_SUCCESS
            StepResult.ret PAM_SUCCESS
              (preEvents env ctrl tries ++
                [Event.getVerify (env.attempts tries).verifyRet (some t)])

/-- The retry loop `while (tries < options.retry_times)` (lines 166-230),
by fuel (`fuel` = remaining iterations, `tries` = iterations already run,
`retval` = current value of the C local `retval`).  When the loop exhausts,
lines 223-230: clear the token, then `PAM_MAXTRIES` when `retry_times > 1`
else the last `retval`. -/
def updateLoop (env : Env) (flags ctrl : Nat) (retry_times : Int) :
    Nat → Nat → Int → Int × List Event
  | 0, _tries, retval =>
    ((if 1 < retry_times then PAM_MAXTRIES else retval), [Event.setAuthtok none])
  | fuel + 1, tries, _retval =>
    match step env flags ctrl tries with
    | StepResult.ret st evs => (st, evs)
    | StepResult.cont rv evs =>
      let r := updateLoop env flags ctrl retry_times fuel (tries + 1) rv
      (r.1, evs ++ r.2)

/-- `pam_sm_chauthtok` (lines 134-237): parse, then dispatch on the phase
flags; the update phase reads the old token (failure tolerated, line
159-164) and runs the retry loop with `tries = 0` and `retval` holding the
`pam_get_item` return value. -/
def pam_sm_chauthtok (env : Env) (flags : Nat) (argv : List String) :
    Int × List Event :=
  match _pam_parse env.parse argv CO_RETRY_TIMES with
  | none => (PAM_BUF_ERR, [])
  | some (ctrl, retry_times, pevs) =>
    if flags &&& PAM_PRELIM_CHECK ≠ 0 then
      (PAM_SUCCESS, pevs)
    else if flags &&& PAM_UPDATE_AUTHTOK ≠ 0 then
      let oldEvs := Event.getOldItem env.getOldRet ::
        (if env.getOldRet ≠ PAM_SUCCESS ∧ ctrl &&& PAM_DEBUG_ARG ≠ 0 then [Event.logMsg] else [])
      let r := updateLoop env flags ctrl retry_times retry_times.toNat 0 env.getOldRet
      (r.1, pevs ++ oldEvs ++ r.2)
    else
      (PAM_SERVICE_ERR, pevs ++ (if ctrl &&& PAM_DEBUG_ARG ≠ 0 then [Event.logMsg] else []))

/-! ### Observation helpers -/

/-- Whether an iteration of the loop body `continue`s, and with which value of
the C local `retval`; `none` when the body executes a `return`. -/
def stepCont (env : Env) (flags ctrl : Nat) (tries : Nat) : Option Int :=
  match step env flags ctrl tries with
  | StepResult.cont rv _ => some rv
  | StepResult.ret _ _ => none

/-- Recognizes a `pam_get_authtok_noverify` call in the trace: each attempt
cycle of the loop begins with exactly one such call (line 181). -/
def isNoverifyEvent : Event → Bool
  | Event.getNoverify _ _ => true
  | _ => false

/-- Number of attempt cycles recorded in a trace. -/
def countNoverify (l : List Event) : Nat :=
  (l.filter isNoverifyEvent).length

/-! ### Concrete environments used to instantiate the theorems -/

/-- A parse environment where every libpwquality configuration call succeeds. -/
def parseOk : ParseEnv :=
  { defaultSettingsOk := true, readConfigRet := 0, setOptionRet := fun _ => 0 }

/-- A parse environment where `pwquality_default_settings()` yields NULL. -/
def parseNoAlloc : ParseEnv :=
  { defaultSettingsOk := false, readConfigRet := 0, setOptionRet := fun _ => 0 }

/-- An attempt where both retrievals succeed and the quality check accepts. -/
def attemptAccept : Attempt :=
  { noverifyRet := PAM_SUCCESS, noverifyTok := some "Str0ng&Secure9Z", checkRet := 42,
    crackMsg := "", verifyRet := PAM_SUCCESS, verifyTok := some "Str0ng&Secure9Z" }

/-- An attempt where the quality check rejects with `PWQ_ERROR_MIN_LENGTH`. -/
def attemptReject : Attempt :=
  { noverifyRet := PAM_SUCCESS, noverifyTok := some "weak", checkRet := PWQ_ERROR_MIN_LENGTH,
    crackMsg := "", verifyRet := PAM_SUCCESS, verifyTok := some "weak" }

/-- An attempt where `pam_get_authtok_noverify` succeeds with a NULL token
(user abort at the first prompt). -/
def attemptAbortFirst : Attempt :=
  { noverifyRet := PAM_SUCCESS, noverifyTok := none, checkRet := 0,
    crackMsg := "", verifyRet := PAM_SUCCESS, verifyTok := none }

/-- An attempt where `pam_get_authtok_verify` succeeds with a NULL token
(user abort at the second prompt), after an accepted candidate. -/
def attemptAbortSecond : Attempt :=
  { noverifyRet := PAM_SUCCESS, noverifyTok := some "pw", checkRet := 10,
    crackMsg := "", verifyRet := PAM_SUCCESS, verifyTok := none }

/-- An invocation environment with the given uid whose every iteration
behaves like `a`. -/
def mkEnv (uid : Nat) (a : Attempt) : Env :=
  { parse := parseOk, uid := uid, getOldRet := PAM_SUCCESS, attempts := fun _ => a }

/-- An invocation environment where `pwquality_default_settings()` fails. -/
def envNoAlloc : Env :=
  { parse := parseNoAlloc, uid := 0, getOldRet := PAM_SUCCESS, attempts := fun _ => attemptAccept }

/-! ## Helper lemmas -/

theorem getLast?_append_right {α : Type} {l₁ l₂ : List α} (h : l₂ ≠ []) :
    (l₁ ++ l₂).getLast? = l₂.getLast? := by
  rw [List.getLast?_append]
  obtain ⟨x, hx⟩ := Option.isSome_iff_exists.mp (List.getLast?_isSome.mpr h)
  rw [hx]; rfl

theorem countNoverify_append (l₁ l₂ : List Event) :
    countNoverify (l₁ ++ l₂) = countNoverify l₁ + countNoverify l₂ := by
  simp [countNoverify, List.filter_append]

theorem countNoverify_checkEvents (env : Env) (ctrl tries : Nat) :
    countNoverify (checkEvents env ctrl tries) = 0 := by
  unfold checkEvents
  split <;> split <;> simp [countNoverify, isNoverifyEvent]

theorem countNoverify_preEvents (env : Env) (ctrl tries : Nat) :
    countNoverify (preEvents env ctrl tries) = 1 := by
  have h := countNoverify_checkEvents env ctrl tries
  unfold countNoverify at h ⊢
  simp [preEvents, List.filter, isNoverifyEvent, h]

theorem setAuthtok_not_mem_checkEvents (env : Env) (ctrl tries : Nat) (v : Option String) :
    Event.setAuthtok v ∉ checkEvents env ctrl tries := by
  unfold checkEvents
  split <;> split <;> simp

theorem setAuthtok_not_mem_preEvents (env : Env) (ctrl tries : Nat) (v : Option String) :
    Event.setAuthtok v ∉ preEvents env ctrl tries := by
  have h := setAuthtok_not_mem_checkEvents env ctrl tries v
  simp only [preEvents, List.mem_cons]
  intro hc
  rcases hc with h1 | h1 | h1 <;> first | exact Event.noConfusion h1 | exact h h1

theorem step_cont_spec {env : Env} {flags ctrl tries : Nat} {rv : Int} {evs : List Event}
    (h : step env flags ctrl tries = StepResult.cont rv evs) :
    rv ≠ PAM_SUCCESS ∧ evs ≠ [] ∧ countNoverify evs = 1 := by
  unfold step at h
  by_cases h1 : (env.attempts tries).noverifyRet ≠ PAM_SUCCESS
  · rw [if_pos h1] at h
    injection h with ha hb
    subst ha; subst hb
    exact ⟨h1, by simp, by simp [countNoverify, isNoverifyEvent]⟩
  · rw [if_neg h1] at h
    cases htok : (env.attempts tries).noverifyTok with
    | none =>
      simp only [htok] at h
      exact StepResult.noConfusion h
    | some tok =>
      simp only [htok] at h
      by_cases h2 : (env.attempts tries).checkRet < 0 ∧
          (env.uid ≠ 0 ∨ flags &&& PAM_CHANGE_EXPIRED_AUTHTOK ≠ 0)
      · rw [if_pos h2] at h
        injection h with ha hb
        subst ha; subst hb
        refine ⟨by decide, by simp [preEvents], ?_⟩
        rw [countNoverify_append, countNoverify_preEvents]
        simp [countNoverify, isNoverifyEvent]
      · rw [if_neg h2] at h
        by_cases h3 : (env.attempts tries).verifyRet ≠ PAM_SUCCESS
        · rw [if_pos h3] at h
          injection h with ha hb
          subst ha; subst hb
          refine ⟨h3, by simp [preEvents], ?_⟩
          rw [countNoverify_append, countNoverify_preEvents]
          simp [countNoverify, isNoverifyEvent]
        · rw [if_neg h3] at h
          cases hv : (env.attempts tries).verifyTok with
          | none =>
            simp only [hv] at h
            exact StepResult.noConfusion h
          | some t =>
            simp only [hv] at h
            exact StepResult.noConfusion h

theorem step_ret_spec {env : Env} {flags ctrl tries : Nat} {st : Int} {evs : List Event}
    (h : step env flags ctrl tries = StepResult.ret st evs) :
    evs ≠ [] ∧ countNoverify evs = 1 ∧
      ((st = PAM_SUCCESS ∧
          ∃ tk, evs.getLast? = some (Event.getVerify PAM_SUCCESS (some tk))) ∨
       (st = PAM_AUTHTOK_ERR ∧
          (evs.getLast? = some (Event.getNoverify PAM_SUCCESS none) ∨
           evs.getLast? = some (Event.getVerify PAM_SUCCESS none)))) := by
  unfold step at h
  by_cases h1 : (env.attempts tries).noverifyRet ≠ PAM_SUCCESS
  · rw [if_pos h1] at h
    exact StepResult.noConfusion h
  · rw [if_neg h1] at h
    push_neg at h1
    cases htok : (env.attempts tries).noverifyTok with
    | none =>
      simp only [htok] at h
      injection h with ha hb
      subst ha; subst hb
      refine ⟨by simp, by simp [countNoverify, isNoverifyEvent], Or.inr ⟨rfl, Or.inl ?_⟩⟩
      rw [h1]; simp
    | some tok =>
      simp only [htok] at h
      by_cases h2 : (env.attempts tries).checkRet < 0 ∧
          (env.uid ≠ 0 ∨ flags &&& PAM_CHANGE_EXPIRED_AUTHTOK ≠ 0)
      · rw [if_pos h2] at h
        exact StepResult.noConfusion h
      · rw [if_neg h2] at h
        by_cases h3 : (env.attempts tries).verifyRet ≠ PAM_SUCCESS
        · rw [if_pos h3] at h
          exact StepResult.noConfusion h
        · rw [if_neg h3] at h
          push_neg at h3
          cases hv : (env.attempts tries).verifyTok with
          | none =>
            simp only [hv] at h
            injection h with ha hb
            subst ha; subst hb
            refine ⟨by simp [preEvents], ?_, Or.inr ⟨rfl, Or.inr ?_⟩⟩
            · rw [countNoverify_append, countNoverify_preEvents]
              simp [countNoverify, isNoverifyEvent]
            · rw [List.getLast?_concat, h3]
          | some t =>
            simp only [hv] at h
            injection h with ha hb
            subst ha; subst hb
            refine ⟨by simp [preEvents], ?_, Or.inl ⟨rfl, ⟨t, ?_⟩⟩⟩
            · rw [countNoverify_append, countNoverify_preEvents]
              simp [countNoverify, isNoverifyEvent]
            · rw [List.getLast?_concat, h3]

theorem updateLoop_trace_ne_nil (env : Env) (flags ctrl : Nat) (rt : Int) :
    ∀ fuel tries rv, (updateLoop env flags ctrl rt fuel tries rv).2 ≠ [] := by
  intro fuel
  induction fuel with
  | zero => intro tries rv; simp [updateLoop]
  | succ fuel ih =>
    intro tries rv
    cases hs : step env flags ctrl tries with
    | ret st evs =>
      simp only [updateLoop, hs]
      exact (step_ret_spec hs).1
    | cont rv' evs =>
      simp only [updateLoop, hs]
      intro hc
      exact ih (tries + 1) rv' (List.append_eq_nil.mp hc).2

theorem updateLoop_count (env : Env) (flags ctrl : Nat) (rt : Int) :
    ∀ fuel tries rv, countNoverify (updateLoop env flags ctrl rt fuel tries rv).2 ≤ fuel := by
  intro fuel
  induction fuel with
  | zero => intro tries rv; simp [updateLoop, countNoverify, isNoverifyEvent]
  | succ fuel ih =>
    intro tries rv
    cases hs : step env flags ctrl tries with
    | ret st evs =>
      simp only [updateLoop, hs]
      rw [(step_ret_spec hs).2.1]
      omega
    | cont rv' evs =>
      simp only [updateLoop, hs]
      rw [countNoverify_append, (step_cont_spec hs).2.2]
      have := ih (tries + 1) rv'
      omega

theorem updateLoop_last (env : Env) (flags ctrl : Nat) (rt : Int) :
    ∀ fuel tries rv, fuel ≠ 0 ∨ rv ≠ PAM_SUCCESS →
      (((updateLoop env flags ctrl rt fuel tries rv).1 = PAM_SUCCESS →
         ∃ tk, (updateLoop env flags ctrl rt fuel tries rv).2.getLast? =
           some (Event.getVerify PAM_SUCCESS (some tk))) ∧
       ((updateLoop env flags ctrl rt fuel tries rv).1 ≠ PAM_SUCCESS →
         ((updateLoop env flags ctrl rt fuel tries rv).2.getLast? =
            some (Event.setAuthtok none) ∨
          (updateLoop env flags ctrl rt fuel tries rv).2.getLast? =
            some (Event.getNoverify PAM_SUCCESS none) ∨
          (updateLoop env flags ctrl rt fuel tries rv).2.getLast? =
            some (Event.getVerify PAM_SUCCESS none)))) := by
  intro fuel
  induction fuel with
  | zero =>
    intro tries rv h
    have hrv : rv ≠ PAM_SUCCESS := h.resolve_left (by simp)
    constructor
    · intro hst
      exfalso
      revert hst
      simp only [updateLoop]
      split
      · exact fun hc => absurd hc (by decide)
      · exact hrv
    · intro _
      simp [updateLoop]
  | succ fuel ih =>
    intro tries rv _
    cases hs : step env flags ctrl tries with
    | ret st evs =>
      obtain ⟨-, -, hc⟩ := step_ret_spec hs
      simp only [updateLoop, hs]
      constructor
      · intro hst
        rcases hc with ⟨-, htk⟩ | ⟨hst2, -⟩
        · exact htk
        · rw [hst] at hst2; exact absurd hst2 (by decide)
      · intro hst
        rcases hc with ⟨hst2, -⟩ | ⟨-, hlast⟩
        · exact absurd hst2 hst
        · exact Or.inr hlast
    | cont rv' evs =>
      have hrv' := (step_cont_spec hs).1
      have hrec := ih (tries + 1) rv' (Or.inr hrv')
      have hne := updateLoop_trace_ne_nil env flags ctrl rt fuel (tries + 1) rv'
      simp only [updateLoop, hs]
      rw [getLast?_append_right hne]
      exact hrec

theorem updateLoop_exhaust (env : Env) (flags ctrl : Nat) (rt : Int) :
    ∀ fuel tries rv rvL, 0 < fuel →
      (∀ i, tries ≤ i → i < tries + fuel → stepCont env flags ctrl i ≠ none) →
      stepCont env flags ctrl (tries + fuel - 1) = some rvL →
      (updateLoop env flags ctrl rt fuel tries rv).1 =
        if 1 < rt then PAM_MAXTRIES else rvL := by
  intro fuel
  induction fuel with
  | zero => intro tries rv rvL h0; omega
  | succ fuel ih =>
    intro tries rv rvL _ hall hlast
    have hcs : stepCont env flags ctrl tries ≠ none :=
      hall tries (Nat.le_refl _) (by omega)
    cases hs : step env flags ctrl tries with
    | ret st evs =>
      exfalso
      apply hcs
      simp [stepCont, hs]
    | cont rv' evs =>
      have hsc : stepCont env flags ctrl tries = some rv' := by simp [stepCont, hs]
      cases fuel with
      | zero =>
        have hidx : tries + 1 - 1 = tries := by omega
        rw [hidx, hsc] at hlast
        have : rv' = rvL := Option.some.inj hlast
        subst this
        simp [updateLoop, hs]
      | succ f =>
        have hrec := ih (tries + 1) rv' rvL (by omega)
          (fun i h1 h2 => hall i (by omega) (by omega))
          (by
            have hidx : tries + 1 + (f + 1) - 1 = tries + (f + 1 + 1) - 1 := by omega
            rw [hidx]
            exact hlast)
        simp only [updateLoop, hs]
        exact hrec

theorem parseArgs_retry_ge (penv : ParseEnv) :
    ∀ argv ctrl rt0, 1 ≤ rt0 → 1 ≤ (parseArgs penv argv ctrl rt0).2.1 := by
  intro argv
  induction argv with
  | nil => intro ctrl rt0 h; exact h
  | cons arg rest ih =>
    intro ctrl rt0 h
    unfold parseArgs
    repeat' split
    case _ => exact ih _ _ h
    case _ => exact ih _ _ h
    case _ => exact ih _ _ (by norm_num [CO_RETRY_TIMES])
    case _ => refine ih _ _ ?_; omega
    all_goals exact ih _ _ h

theorem countNoverify_parseArgs (penv : ParseEnv) :
    ∀ argv ctrl rt, countNoverify (parseArgs penv argv ctrl rt).2.2 = 0 := by
  intro argv
  induction argv with
  | nil => intro ctrl rt; simp [parseArgs, countNoverify]
  | cons arg rest ih =>
    intro ctrl rt
    unfold parseArgs
    repeat' split
    all_goals exact ih _ _

theorem _pam_parse_of_ok {penv : ParseEnv} (hok : penv.defaultSettingsOk = true)
    (argv : List String) (r0 : Int) :
    _pam_parse penv argv r0 =
      some ((parseArgs penv argv 0 r0).1, (parseArgs penv argv 0 r0).2.1,
        (if penv.readConfigRet ≠ 0 then [Event.logMsg] else []) ++
          (parseArgs penv argv 0 r0).2.2) := by
  unfold _pam_parse
  rw [hok]
  rfl

theorem _pam_parse_retry_ge {penv : ParseEnv} {argv : List String} {r0 : Int}
    {c : Nat} {rt : Int} {evs : List Event}
    (h : _pam_parse penv argv r0 = some (c, rt, evs)) (h0 : 1 ≤ r0) : 1 ≤ rt := by
  cases hok : penv.defaultSettingsOk with
  | false => rw [_pam_parse, hok] at h; simp at h
  | true =>
    rw [_pam_parse_of_ok hok argv r0] at h
    have h2 := Option.some.inj h
    rw [Prod.mk.injEq, Prod.mk.injEq] at h2
    obtain ⟨-, h3, -⟩ := h2
    rw [← h3]
    exact parseArgs_retry_ge penv argv 0 r0 h0

theorem _pam_parse_count {penv : ParseEnv} {argv : List String} {r0 : Int}
    {c : Nat} {rt : Int} {evs : List Event}
    (h : _pam_parse penv argv r0 = some (c, rt, evs)) : countNoverify evs = 0 := by
  cases hok : penv.defaultSettingsOk with
  | false => rw [_pam_parse, hok] at h; simp at h
  | true =>
    rw [_pam_parse_of_ok hok argv r0] at h
    have h2 := Option.some.inj h
    rw [Prod.mk.injEq, Prod.mk.injEq] at h2
    obtain ⟨-, -, h3⟩ := h2
    rw [← h3, countNoverify_append, countNoverify_parseArgs]
    split <;> simp [countNoverify, isNoverifyEvent]

theorem parseArgs_type_cons (penv : ParseEnv) (rest : List String) (ctrl : Nat) (rt : Int)
    (arg : String) (h1 : arg ≠ "debug") (h2 : beginsWith arg "type=" = true) :
    parseArgs penv (arg :: rest) ctrl rt =
      ((parseArgs penv rest ctrl rt).1, (parseArgs penv rest ctrl rt).2.1,
        Event.setAuthtokType (strAdvance arg 5) :: (parseArgs penv rest ctrl rt).2.2) := by
  conv_lhs => rw [parseArgs]
  rw [if_neg h1, if_pos h2]

/-! ## Claims -/

/-- C1 (counterexample): in the preliminary-check phase the entry point
returns the success status although no host call at all was made — in
particular no `pam_get_authtok_verify` call — so "for every input, a success
return implies the last host call was a successful `pam_get_authtok_verify`
yielding a non-null token" is false as stated. -/
theorem C1_counterexample :
    (pam_sm_chauthtok (mkEnv 1000 attemptAccept) PAM_PRELIM_CHECK []).1 = PAM_SUCCESS ∧
    (pam_sm_chauthtok (mkEnv 1000 attemptAccept) PAM_PRELIM_CHECK []).2.getLast? = none := by
  decide

/-- C1 (amended): in the update phase, the entry point never returns the
success status unless the last host call before returning was a
`pam_get_authtok_verify` that returned success together with a non-null
verification token. -/
theorem C1_success_requires_verify (env : Env) (flags : Nat) (argv : List String)
    (hpre : flags &&& PAM_PRELIM_CHECK = 0) (hupd : flags &&& PAM_UPDATE_AUTHTOK ≠ 0)
    (hst : (pam_sm_chauthtok env flags argv).1 = PAM_SUCCESS) :
    ∃ tk, (pam_sm_chauthtok env flags argv).2.getLast? =
      some (Event.getVerify PAM_SUCCESS (some tk)) := by
  cases hp : _pam_parse env.parse argv CO_RETRY_TIMES with
  | none =>
    simp only [pam_sm_chauthtok, hp] at hst
    exact absurd hst (by decide)
  | some trip =>
    obtain ⟨ctrl, rt, pevs⟩ := trip
    simp only [pam_sm_chauthtok, hp] at hst ⊢
    rw [if_neg (fun hc => hc hpre), if_pos hupd] at hst ⊢
    have hrt : 1 ≤ rt := _pam_parse_retry_ge hp (by norm_num [CO_RETRY_TIMES])
    obtain ⟨tk, htk⟩ :=
      (updateLoop_last env flags ctrl rt rt.toNat 0 env.getOldRet (Or.inl (by omega))).1 hst
    refine ⟨tk, ?_⟩
    rw [getLast?_append_right (updateLoop_trace_ne_nil env flags ctrl rt rt.toNat 0 env.getOldRet)]
    exact htk

/-- C1 (witness): a successful non-root update run; its trace ends with the
successful verification call. -/
theorem C1_witness :
    ∃ tk, (pam_sm_chauthtok (mkEnv 1000 attemptAccept) PAM_UPDATE_AUTHTOK []).2.getLast? =
      some (Event.getVerify PAM_SUCCESS (some tk)) :=
  C1_success_requires_verify (mkEnv 1000 attemptAccept) PAM_UPDATE_AUTHTOK []
    (by decide) (by decide) (by decide)

/-- C2: if every iteration of the update-phase retry loop `continue`s (no
iteration returns), the entry point returns `PAM_MAXTRIES` when the
configured retry limit exceeds 1, and the last value of the C local `retval`
(the last specific failure) when the retry limit is 1 (lines 223-230). -/
theorem C2_exhaustion_status (env : Env) (flags : Nat) (argv : List String)
    (ctrl : Nat) (rt : Int) (pevs : List Event) (rvL : Int)
    (hpre : flags &&& PAM_PRELIM_CHECK = 0) (hupd : flags &&& PAM_UPDATE_AUTHTOK ≠ 0)
    (hp : _pam_parse env.parse argv CO_RETRY_TIMES = some (ctrl, rt, pevs))
    (hall : ∀ i, i < rt.toNat → stepCont env flags ctrl i ≠ none)
    (hlast : stepCont env flags ctrl (rt.toNat - 1) = some rvL) :
    (pam_sm_chauthtok env flags argv).1 = if 1 < rt then PAM_MAXTRIES else rvL := by
  have hrt : 1 ≤ rt := _pam_parse_retry_ge hp (by norm_num [CO_RETRY_TIMES])
  simp only [pam_sm_chauthtok, hp]
  rw [if_neg (fun hc => hc hpre), if_pos hupd]
  exact updateLoop_exhaust env flags ctrl rt rt.toNat 0 env.getOldRet rvL (by omega)
    (fun i _ h2 => hall i (by omega)) (by simpa using hlast)

/-- C2 (witness): with `retry=1` and a non-root quality rejection on the sole
attempt, the final status is the last specific `retval` (`PAM_AUTHTOK_ERR`),
not the generic `PAM_MAXTRIES`. -/
theorem C2_witness :
    (pam_sm_chauthtok (mkEnv 1000 attemptReject) PAM_UPDATE_AUTHTOK ["retry=1"]).1 =
      if 1 < (1 : Int) then PAM_MAXTRIES else PAM_AUTHTOK_ERR :=
  C2_exhaustion_status (mkEnv 1000 attemptReject) PAM_UPDATE_AUTHTOK ["retry=1"]
    0 1 [] PAM_AUTHTOK_ERR (by decide) (by decide) (by decide)
    (fun i hi => by
      have : i = 0 := by omega
      subst this
      decide)
    (by decide)

/-- C3: with uid 0 and no `PAM_CHANGE_EXPIRED_AUTHTOK` flag, a negative
quality-check result neither clears the pending token nor consumes a retry:
the iteration proceeds to the verification call and (when it succeeds with a
non-null token) the loop returns success (lines 193-220). -/
theorem C3_root_override (env : Env) (flags ctrl : Nat) (rt : Int) (fuel tries : Nat)
    (rv : Int) (tok tk : String)
    (hroot : env.uid = 0) (hexp : flags &&& PAM_CHANGE_EXPIRED_AUTHTOK = 0)
    (hnv : (env.attempts tries).noverifyRet = PAM_SUCCESS)
    (htok : (env.attempts tries).noverifyTok = some tok)
    (_hrej : (env.attempts tries).checkRet < 0)
    (hver : (env.attempts tries).verifyRet = PAM_SUCCESS)
    (hvtok : (env.attempts tries).verifyTok = some tk) :
    ∃ evs, updateLoop env flags ctrl rt (fuel + 1) tries rv = (PAM_SUCCESS, evs) ∧
      Event.setAuthtok none ∉ evs ∧
      Event.getVerify PAM_SUCCESS (some tk) ∈ evs := by
  have hs : step env flags ctrl tries = StepResult.ret PAM_SUCCESS
      (preEvents env ctrl tries ++
        [Event.getVerify (env.attempts tries).verifyRet (some tk)]) := by
    unfold step
    rw [if_neg (by simp [hnv])]
    simp only [htok]
    rw [if_neg (by simp [hroot, hexp])]
    rw [if_neg (by simp [hver])]
    simp only [hvtok]
  refine ⟨preEvents env ctrl tries ++
      [Event.getVerify (env.attempts tries).verifyRet (some tk)], ?_, ?_, ?_⟩
  · simp only [updateLoop, hs]
  · intro hc
    rcases List.mem_append.mp hc with h1 | h1
    · exact setAuthtok_not_mem_preEvents env ctrl tries none h1
    · simp at h1
  · refine List.mem_append.mpr (Or.inr ?_)
    rw [hver]
    simp

/-- C3 (witness): a root-initiated non-expired change whose candidate is
rejected by the quality check still returns success after verification. -/
theorem C3_witness :
    ∃ evs, updateLoop (mkEnv 0 attemptReject) PAM_UPDATE_AUTHTOK 0 1 (0 + 1) 0 PAM_SUCCESS =
        (PAM_SUCCESS, evs) ∧
      Event.setAuthtok none ∉ evs ∧
      Event.getVerify PAM_SUCCESS (some "weak") ∈ evs :=
  C3_root_override (mkEnv 0 attemptReject) PAM_UPDATE_AUTHTOK 0 1 0 0 PAM_SUCCESS
    "weak" "weak" rfl (by decide) rfl rfl (by decide) rfl rfl

/-- C4 (counterexample): a verification retrieval that returns success with a
NULL token makes the update phase return the failure status
`PAM_AUTHTOK_ERR` without ever setting the `PAM_AUTHTOK` item to NULL, so
"every failure return path of the update phase ends by clearing the pending
token" is false as stated. -/
theorem C4_counterexample :
    (pam_sm_chauthtok (mkEnv 1000 attemptAbortSecond) PAM_UPDATE_AUTHTOK []).1 =
      PAM_AUTHTOK_ERR ∧
    Event.setAuthtok none ∉
      (pam_sm_chauthtok (mkEnv 1000 attemptAbortSecond) PAM_UPDATE_AUTHTOK []).2 := by
  decide

/-- C4 (amended): every non-success return of the update phase either ends by
clearing the `PAM_AUTHTOK` item (line 223, and the rejection/mismatch paths)
or is one of the two immediate user-abort returns, recognizable as a token
retrieval that returned success with a NULL token (lines 186-188, 216-218). -/
theorem C4_failure_clears_or_abort (env : Env) (flags : Nat) (argv : List String)
    (hok : env.parse.defaultSettingsOk = true)
    (hpre : flags &&& PAM_PRELIM_CHECK = 0) (hupd : flags &&& PAM_UPDATE_AUTHTOK ≠ 0)
    (hst : (pam_sm_chauthtok env flags argv).1 ≠ PAM_SUCCESS) :
    (pam_sm_chauthtok env flags argv).2.getLast? = some (Event.setAuthtok none) ∨
    (pam_sm_chauthtok env flags argv).2.getLast? = some (Event.getNoverify PAM_SUCCESS none) ∨
    (pam_sm_chauthtok env flags argv).2.getLast? = some (Event.getVerify PAM_SUCCESS none) := by
  have hp := _pam_parse_of_ok hok argv CO_RETRY_TIMES
  have hrt : 1 ≤ (parseArgs env.parse argv 0 CO_RETRY_TIMES).2.1 :=
    parseArgs_retry_ge env.parse argv 0 CO_RETRY_TIMES (by norm_num [CO_RETRY_TIMES])
  simp only [pam_sm_chauthtok, hp] at hst ⊢
  rw [if_neg (fun hc => hc hpre), if_pos hupd] at hst ⊢
  rw [getLast?_append_right (updateLoop_trace_ne_nil env flags _ _ _ 0 env.getOldRet)]
  exact (updateLoop_last env flags _ _ _ 0 env.getOldRet (Or.inl (by omega))).2 hst

/-- C4 (witness): a non-root run whose single attempt is rejected exhausts the
loop; the failing return's last event is the clearing of the token item. -/
theorem C4_witness :
    (pam_sm_chauthtok (mkEnv 1000 attemptReject) PAM_UPDATE_AUTHTOK []).2.getLast? =
        some (Event.setAuthtok none) ∨
    (pam_sm_chauthtok (mkEnv 1000 attemptReject) PAM_UPDATE_AUTHTOK []).2.getLast? =
        some (Event.getNoverify PAM_SUCCESS none) ∨
    (pam_sm_chauthtok (mkEnv 1000 attemptReject) PAM_UPDATE_AUTHTOK []).2.getLast? =
        some (Event.getVerify PAM_SUCCESS none) :=
  C4_failure_clears_or_abort (mkEnv 1000 attemptReject) PAM_UPDATE_AUTHTOK []
    rfl (by decide) (by decide) (by decide)

/-- C5: a token-retrieval call that returns success together with a NULL
token makes the loop return `PAM_AUTHTOK_ERR` at once: for
`pam_get_authtok_noverify` the whole remaining loop produces exactly the one
retrieval event, and for `pam_get_authtok_verify` (reached when the quality
result does not send the iteration into the clear-and-continue branch) the
remaining loop performs exactly one attempt cycle — no further retries in
either case, whatever fuel remains (lines 186-188, 216-218). -/
theorem C5_null_token_aborts (env : Env) (flags ctrl : Nat) (rt : Int) (fuel tries : Nat)
    (rv : Int) :
    ((env.attempts tries).noverifyRet = PAM_SUCCESS →
      (env.attempts tries).noverifyTok = none →
      updateLoop env flags ctrl rt (fuel + 1) tries rv =
        (PAM_AUTHTOK_ERR, [Event.getNoverify PAM_SUCCESS none])) ∧
    (∀ tok, (env.attempts tries).noverifyRet = PAM_SUCCESS →
      (env.attempts tries).noverifyTok = some tok →
      ¬((env.attempts tries).checkRet < 0 ∧
          (env.uid ≠ 0 ∨ flags &&& PAM_CHANGE_EXPIRED_AUTHTOK ≠ 0)) →
      (env.attempts tries).verifyRet = PAM_SUCCESS →
      (env.attempts tries).verifyTok = none →
      ∃ evs, updateLoop env flags ctrl rt (fuel + 1) tries rv = (PAM_AUTHTOK_ERR, evs) ∧
        countNoverify evs = 1) := by
  constructor
  · intro hnv htok
    have hs : step env flags ctrl tries = StepResult.ret PAM_AUTHTOK_ERR
        [Event.getNoverify (env.attempts tries).noverifyRet none] := by
      unfold step
      rw [if_neg (by simp [hnv])]
      simp only [htok]
    simp only [updateLoop, hs, hnv]
  · intro tok hnv htok hpol hver hvtok
    have hs : step env flags ctrl tries = StepResult.ret PAM_AUTHTOK_ERR
        (preEvents env ctrl tries ++
          [Event.getVerify (env.attempts tries).verifyRet none]) := by
      unfold step
      rw [if_neg (by simp [hnv])]
      simp only [htok]
      rw [if_neg hpol, if_neg (by simp [hver])]
      simp only [hvtok]
    refine ⟨preEvents env ctrl tries ++
        [Event.getVerify (env.attempts tries).verifyRet none],
      by simp only [updateLoop, hs], ?_⟩
    rw [countNoverify_append, countNoverify_preEvents]
    simp [countNoverify, isNoverifyEvent]

/-- C5 (witness): an abort at the first prompt with three retries still
pending returns `PAM_AUTHTOK_ERR` with a single retrieval event. -/
theorem C5_witness :
    updateLoop (mkEnv 1000 attemptAbortFirst) PAM_UPDATE_AUTHTOK 0 4 (3 + 1) 0 PAM_SUCCESS =
      (PAM_AUTHTOK_ERR, [Event.getNoverify PAM_SUCCESS none]) :=
  (C5_null_token_aborts (mkEnv 1000 attemptAbortFirst) PAM_UPDATE_AUTHTOK 0 4 3 0
    PAM_SUCCESS).1 rfl rfl

/-- C6: for any successfully parsed configuration the entry point performs at
most `retry_times` attempt cycles (each beginning with a
`pam_get_authtok_noverify` call); the loop is bounded by the parsed retry
limit (lines 166-171). -/
theorem C6_attempt_bound (env : Env) (flags : Nat) (argv : List String)
    (ctrl : Nat) (rt : Int) (pevs : List Event)
    (hp : _pam_parse env.parse argv CO_RETRY_TIMES = some (ctrl, rt, pevs)) :
    countNoverify (pam_sm_chauthtok env flags argv).2 ≤ rt.toNat := by
  have hpevs : countNoverify pevs = 0 := _pam_parse_count hp
  simp only [pam_sm_chauthtok, hp]
  by_cases h1 : flags &&& PAM_PRELIM_CHECK ≠ 0
  · rw [if_pos h1]
    simp [hpevs]
  · rw [if_neg h1]
    by_cases h2 : flags &&& PAM_UPDATE_AUTHTOK ≠ 0
    · rw [if_pos h2]
      rw [countNoverify_append, countNoverify_append, hpevs]
      have hold : countNoverify (Event.getOldItem env.getOldRet ::
          (if env.getOldRet ≠ PAM_SUCCESS ∧ ctrl &&& PAM_DEBUG_ARG ≠ 0
            then [Event.logMsg] else [])) = 0 := by
        split <;> simp [countNoverify, isNoverifyEvent]
      rw [hold]
      have := updateLoop_count env flags ctrl rt rt.toNat 0 env.getOldRet
      omega
    · rw [if_neg h2]
      rw [countNoverify_append, hpevs]
      have hdbg : countNoverify
          (if ctrl &&& PAM_DEBUG_ARG ≠ 0 then [Event.logMsg] else []) = 0 := by
        split <;> simp [countNoverify, isNoverifyEvent]
      rw [hdbg]
      omega

/-- C6 (witness): with `retry=2` and every attempt rejected, the run records
at most two attempt cycles. -/
theorem C6_witness :
    countNoverify
      (pam_sm_chauthtok (mkEnv 1000 attemptReject) PAM_UPDATE_AUTHTOK ["retry=2"]).2 ≤
      (2 : Int).toNat :=
  C6_attempt_bound (mkEnv 1000 attemptReject) PAM_UPDATE_AUTHTOK ["retry=2"]
    0 2 [] (by decide)

/-- C7: with a non-root uid, a negative quality-check result clears the
pending token (the iteration's trace ends with the NULL `pam_set_item`) and
`continue`s with `retval = PAM_AUTHTOK_ERR`, consuming exactly one of the
remaining attempts (lines 200-204). -/
theorem C7_nonroot_reject_consumes_retry (env : Env) (flags ctrl : Nat) (rt : Int)
    (fuel tries : Nat) (rv : Int) (tok : String)
    (hroot : env.uid ≠ 0)
    (hnv : (env.attempts tries).noverifyRet = PAM_SUCCESS)
    (htok : (env.attempts tries).noverifyTok = some tok)
    (hrej : (env.attempts tries).checkRet < 0) :
    ∃ evs, step env flags ctrl tries = StepResult.cont PAM_AUTHTOK_ERR evs ∧
      evs.getLast? = some (Event.setAuthtok none) ∧
      updateLoop env flags ctrl rt (fuel + 1) tries rv =
        ((updateLoop env flags ctrl rt fuel (tries + 1) PAM_AUTHTOK_ERR).1,
         evs ++ (updateLoop env flags ctrl rt fuel (tries + 1) PAM_AUTHTOK_ERR).2) := by
  have hs : step env flags ctrl tries = StepResult.cont PAM_AUTHTOK_ERR
      (preEvents env ctrl tries ++ [Event.setAuthtok none]) := by
    unfold step
    rw [if_neg (by simp [hnv])]
    simp only [htok]
    rw [if_pos ⟨hrej, Or.inl hroot⟩]
  exact ⟨_, hs, by rw [List.getLast?_concat], by simp only [updateLoop, hs]⟩

/-- C7 (witness): a non-root rejection at the first of two attempts clears the
token and hands the remaining fuel to the next iteration. -/
theorem C7_witness :
    ∃ evs, step (mkEnv 1000 attemptReject) PAM_UPDATE_AUTHTOK 0 0 =
        StepResult.cont PAM_AUTHTOK_ERR evs ∧
      evs.getLast? = some (Event.setAuthtok none) ∧
      updateLoop (mkEnv 1000 attemptReject) PAM_UPDATE_AUTHTOK 0 2 (1 + 1) 0 PAM_SUCCESS =
        ((updateLoop (mkEnv 1000 attemptReject) PAM_UPDATE_AUTHTOK 0 2 1 (0 + 1)
            PAM_AUTHTOK_ERR).1,
         evs ++ (updateLoop (mkEnv 1000 attemptReject) PAM_UPDATE_AUTHTOK 0 2 1 (0 + 1)
            PAM_AUTHTOK_ERR).2) :=
  C7_nonroot_reject_consumes_retry (mkEnv 1000 attemptReject) PAM_UPDATE_AUTHTOK 0 2 1 0
    PAM_SUCCESS "weak" (by decide) rfl rfl (by decide)

/-- C8: `retry=0` and a non-numeric `retry=` value fall back to the default
retry limit `CO_RETRY_TIMES = 1`, and in general any `retry=` option whose
parsed value is below 1 leaves the limit at the default 1 (lines 74-77). -/
theorem C8_retry_invalid_defaults :
    (∀ penv ctrl rt, parseArgs penv ["retry=0"] ctrl rt = (ctrl, CO_RETRY_TIMES, [])) ∧
    (∀ penv ctrl rt, parseArgs penv ["retry=abc"] ctrl rt = (ctrl, CO_RETRY_TIMES, [])) ∧
    (∀ penv (rest : List String) ctrl rt arg, arg ≠ "debug" →
      beginsWith arg "type=" = false → beginsWith arg "retry=" = true →
      strtol10 (strAdvance arg 6) < 1 →
      parseArgs penv (arg :: rest) ctrl rt = parseArgs penv rest ctrl CO_RETRY_TIMES) := by
  refine ⟨fun penv ctrl rt => ?_, fun penv ctrl rt => ?_,
    fun penv rest ctrl rt arg h1 h2 h3 h4 => ?_⟩
  · conv_lhs => rw [parseArgs]
    rw [if_neg (by decide : ¬("retry=0" = "debug")),
      if_neg (by decide : ¬(beginsWith "retry=0" "type=" = true)),
      if_pos (by decide : beginsWith "retry=0" "retry=" = true),
      if_pos (by decide : strtol10 (strAdvance "retry=0" 6) < 1)]
    conv_lhs => rw [parseArgs]
  · conv_lhs => rw [parseArgs]
    rw [if_neg (by decide : ¬("retry=abc" = "debug")),
      if_neg (by decide : ¬(beginsWith "retry=abc" "type=" = true)),
      if_pos (by decide : beginsWith "retry=abc" "retry=" = true),
      if_pos (by decide : strtol10 (strAdvance "retry=abc" 6) < 1)]
    conv_lhs => rw [parseArgs]
  · conv_lhs => rw [parseArgs]
    rw [if_neg h1, h2]
    rw [if_neg (by decide : ¬(false = true))]
    rw [if_pos h3, if_pos h4]

/-- C8 (witness): `retry=-3` (parsed value below 1) falls back to the
default limit 1. -/
theorem C8_witness :
    parseArgs parseOk ["retry=-3"] 0 5 = parseArgs parseOk [] 0 CO_RETRY_TIMES :=
  C8_retry_invalid_defaults.2.2 parseOk [] 0 5 "retry=-3"
    (by decide) (by decide) (by decide) (by decide)

/-- C9: the error-message table of `make_error_message` (lines 99-132): each
listed quality error code maps to exactly its specified string, the five
minimum-count codes all map to "is too simple", the dictionary-check code
returns the library-supplied message verbatim, and every other code maps to
the generic fallback. -/
theorem C9_error_message_table :
    (∀ m, make_error_message PWQ_ERROR_SAME_PASSWORD m = "is the same as the old one") ∧
    (∀ m, make_error_message PWQ_ERROR_PALINDROME m = "is a palindrome") ∧
    (∀ m, make_error_message PWQ_ERROR_CASE_CHANGES_ONLY m = "case changes only") ∧
    (∀ m, make_error_message PWQ_ERROR_TOO_SIMILAR m = "is too similar to the old one") ∧
    (∀ m, make_error_message PWQ_ERROR_MIN_DIGITS m = "is too simple") ∧
    (∀ m, make_error_message PWQ_ERROR_MIN_UPPERS m = "is too simple") ∧
    (∀ m, make_error_message PWQ_ERROR_MIN_LOWERS m = "is too simple") ∧
    (∀ m, make_error_message PWQ_ERROR_MIN_OTHERS m = "is too simple") ∧
    (∀ m, make_error_message PWQ_ERROR_MIN_LENGTH m = "is too simple") ∧
    (∀ m, make_error_message PWQ_ERROR_ROTATED m = "is rotated") ∧
    (∀ m, make_error_message PWQ_ERROR_MIN_CLASSES m = "not enough character classes") ∧
    (∀ m, make_error_message PWQ_ERROR_MAX_CONSECUTIVE m =
      "contains too many same characters consecutively") ∧
    (∀ m, make_error_message PWQ_ERROR_EMPTY_PASSWORD m = "No password supplied") ∧
    (∀ m, make_error_message PWQ_ERROR_MEM_ALLOC m = "memory allocation error") ∧
    (∀ m, make_error_message PWQ_ERROR_CRACKLIB_CHECK m = m) ∧
    (∀ rv m, rv ∉ ([PWQ_ERROR_MEM_ALLOC, PWQ_ERROR_SAME_PASSWORD, PWQ_ERROR_PALINDROME,
        PWQ_ERROR_CASE_CHANGES_ONLY, PWQ_ERROR_TOO_SIMILAR, PWQ_ERROR_MIN_DIGITS,
        PWQ_ERROR_MIN_UPPERS, PWQ_ERROR_MIN_LOWERS, PWQ_ERROR_MIN_OTHERS,
        PWQ_ERROR_MIN_LENGTH, PWQ_ERROR_ROTATED, PWQ_ERROR_MIN_CLASSES,
        PWQ_ERROR_MAX_CONSECUTIVE, PWQ_ERROR_EMPTY_PASSWORD,
        PWQ_ERROR_CRACKLIB_CHECK] : List Int) →
      make_error_message rv m = "Error in service module") := by
  refine ⟨fun m => rfl, fun m => rfl, fun m => rfl, fun m => rfl, fun m => rfl,
    fun m => rfl, fun m => rfl, fun m => rfl, fun m => rfl, fun m => rfl,
    fun m => rfl, fun m => rfl, fun m => rfl, fun m => rfl, fun m => rfl,
    fun rv m h => ?_⟩
  simp only [List.mem_cons, List.mem_singleton, not_or] at h
  obtain ⟨h1, h2, h3, h4, h5, h6, h7, h8, h9, h10, h11, h12, h13, h14, h15⟩ := h
  simp [make_error_message, h1, h2, h3, h4, h5, h6, h7, h8, h9, h10, h11, h12, h13, h14, h15]

/-- C9 (witness): an unmapped negative code (`PWQ_ERROR_UNKNOWN_SETTING`,
never produced by `pwquality_check`) maps to the generic fallback. -/
theorem C9_witness : make_error_message (-5) "x" = "Error in service module" :=
  C9_error_message_table.2.2.2.2.2.2.2.2.2.2.2.2.2.2.2 (-5) "x" (by decide)

/-- C10: option parsing runs before the phase dispatch: when the quality
settings cannot be allocated the entry point returns `PAM_BUF_ERR` for every
phase — the preliminary phase included, so it is not unconditionally an
immediate success — and when parsing succeeds a `type=` option has already
written the authentication-token-type item even in the preliminary phase
(lines 144-153, 57-59, 72-73). -/
theorem C10_parse_before_dispatch :
    (∀ env flags argv, env.parse.defaultSettingsOk = false →
      pam_sm_chauthtok env flags argv = (PAM_BUF_ERR, [])) ∧
    (∀ env flags (rest : List String), env.parse.defaultSettingsOk = true →
      flags &&& PAM_PRELIM_CHECK ≠ 0 →
      (pam_sm_chauthtok env flags ("type=foo" :: rest)).1 = PAM_SUCCESS ∧
      Event.setAuthtokType "foo" ∈ (pam_sm_chauthtok env flags ("type=foo" :: rest)).2) := by
  constructor
  · intro env flags argv h
    rw [pam_sm_chauthtok, _pam_parse, h]
    simp
  · intro env flags rest hok hflag
    have hp := _pam_parse_of_ok hok ("type=foo" :: rest) CO_RETRY_TIMES
    rw [parseArgs_type_cons env.parse rest 0 CO_RETRY_TIMES "type=foo"
      (by decide) (by decide)] at hp
    have hfoo : strAdvance "type=foo" 5 = "foo" := by decide
    rw [hfoo] at hp
    simp only [pam_sm_chauthtok, hp]
    rw [if_pos hflag]
    refine ⟨rfl, ?_⟩
    exact List.mem_append.mpr (Or.inr (List.mem_cons_self _ _))

/-- C10 (witness): with failing settings allocation, the preliminary phase
returns `PAM_BUF_ERR`, not success. -/
theorem C10_witness :
    pam_sm_chauthtok envNoAlloc PAM_PRELIM_CHECK ["type=foo"] = (PAM_BUF_ERR, []) :=
  C10_parse_before_dispatch.1 envNoAlloc PAM_PRELIM_CHECK ["type=foo"] rfl

end PamPwquality
